import Mathlib

/-
Verification of the SEPERA feature-derivation pipeline (src/SEPERA.py).
The derivation of the eleven engineered features, the per-lobe severity
sort, the division guards, and the diagram overlay selection are embedded
as executable Lean definitions and proved against the documented claims.
-/

namespace SEPERA

/-- Maximum of a list, taking the head as the starting accumulator
(matches a pandas column max over a nonempty column); `d` is only
returned on the empty list, which never occurs in this development. -/
def colMax {α : Type} [LinearOrder α] (d : α) : List α → α
  | [] => d
  | x :: xs => xs.foldl max x

theorem le_foldl_max {α : Type} [LinearOrder α] :
    ∀ (xs : List α) (e : α), e ≤ xs.foldl max e
  | [], _ => le_rfl
  | a :: xs, e => le_trans (le_max_left e a) (le_foldl_max xs (max e a))

theorem mem_le_foldl_max {α : Type} [LinearOrder α] :
    ∀ (xs : List α) (e y : α), y ∈ xs → y ≤ xs.foldl max e
  | [], _, y, h => absurd h (List.not_mem_nil y)
  | a :: xs, e, y, h => by
    rcases List.mem_cons.mp h with h | h
    · subst h
      exact le_trans (le_max_right e y) (le_foldl_max xs (max e y))
    · exact mem_le_foldl_max xs (max e a) y h

theorem foldl_max_mem {α : Type} [LinearOrder α] :
    ∀ (xs : List α) (e : α), xs.foldl max e = e ∨ xs.foldl max e ∈ xs
  | [], e => Or.inl rfl
  | a :: xs, e => by
    rcases foldl_max_mem xs (max e a) with h | h
    · rcases max_choice e a with h2 | h2
      · exact Or.inl (by rw [List.foldl_cons, h, h2])
      · refine Or.inr ?_
        rw [List.foldl_cons, h, h2]
        exact List.mem_cons_self a xs
    · refine Or.inr (List.mem_cons_of_mem a ?_)
      rw [List.foldl_cons]
      exact h

theorem colMax_mem {α : Type} [LinearOrder α] (d : α) {l : List α} (h : l ≠ []) :
    colMax d l ∈ l := by
  cases l with
  | nil => exact absurd rfl h
  | cons x xs =>
    show xs.foldl max x ∈ x :: xs
    rcases foldl_max_mem xs x with h2 | h2
    · rw [h2]; exact List.mem_cons_self x xs
    · exact List.mem_cons_of_mem x h2

theorem le_colMax {α : Type} [LinearOrder α] (d : α) {l : List α} {y : α} (h : y ∈ l) :
    y ≤ colMax d l := by
  cases l with
  | nil => exact absurd h (List.not_mem_nil y)
  | cons x xs =>
    show y ≤ xs.foldl max x
    rcases List.mem_cons.mp h with h | h
    · subst h; exact le_foldl_max xs y
    · exact mem_le_foldl_max xs x y h

/-- A column max is invariant under permutation of the column. -/
theorem colMax_perm {α : Type} [LinearOrder α] (d : α) {l₁ l₂ : List α}
    (h : l₁.Perm l₂) : colMax d l₁ = colMax d l₂ := by
  cases l₁ with
  | nil =>
    have h2 : l₂ = [] := by
      have hl := h.length_eq
      simp only [List.length_nil] at hl
      exact List.length_eq_zero.mp hl.symm
    rw [h2]
  | cons x xs =>
    have hne1 : x :: xs ≠ ([] : List α) := List.cons_ne_nil x xs
    have hne2 : l₂ ≠ [] := by
      intro he
      subst he
      have := h.length_eq
      simp at this
    apply le_antisymm
    · exact le_colMax d (h.subset (colMax_mem d hne1))
    · exact le_colMax d (h.symm.subset (colMax_mem d hne2))

/-- One form submission: the raw widget values of src/SEPERA.py lines 140-172.
Grades are the selectbox ordinals 0..5; monetary-free real quantities are
rationals; core counts and age are naturals. -/
structure RawInput where
  age : Nat
  psa : ℚ
  vol : ℚ
  p_high : ℚ
  perineural_inv : Nat
  base_findings : Nat
  base_p_inv : ℚ
  mid_findings : Nat
  mid_p_inv : ℚ
  apex_findings : Nat
  apex_p_inv : ℚ
  pos_core : Nat
  taken_core : Nat
  base_findings_r : Nat
  base_p_inv_r : ℚ
  mid_findings_r : Nat
  mid_p_inv_r : ℚ
  apex_findings_r : Nat
  apex_p_inv_r : ℚ
  pos_core_r : Nat
  taken_core_r : Nat
deriving DecidableEq

/-- Left lobe site findings, source line 179. -/
def gleason_t (i : RawInput) : List Nat :=
  [i.base_findings, i.mid_findings, i.apex_findings]

/-- Left lobe site involvements, source line 182. -/
def p_inv_t (i : RawInput) : List ℚ :=
  [i.base_p_inv, i.mid_p_inv, i.apex_p_inv]

/-- Right lobe site findings, source line 207. -/
def gleason_t_r (i : RawInput) : List Nat :=
  [i.base_findings_r, i.mid_findings_r, i.apex_findings_r]

/-- Right lobe site involvements, source line 210. -/
def p_inv_t_r (i : RawInput) : List ℚ :=
  [i.base_p_inv_r, i.mid_p_inv_r, i.apex_p_inv_r]

/-- The left DataFrame of source line 186: rows pair a grade with an involvement. -/
def g_p_inv (i : RawInput) : List (Nat × ℚ) :=
  List.zip (gleason_t i) (p_inv_t i)

/-- The right DataFrame of source line 214. -/
def g_p_inv_r (i : RawInput) : List (Nat × ℚ) :=
  List.zip (gleason_t_r i) (p_inv_t_r i)

/-- Row order of sort_values(by=[Gleason, involvement], ascending=False):
row `a` comes before row `b` when its grade is larger, or grades tie and
its involvement is at least as large. -/
def siteBefore (a b : Nat × ℚ) : Prop :=
  b.1 < a.1 ∨ (a.1 = b.1 ∧ b.2 ≤ a.2)

instance : DecidableRel siteBefore :=
  fun a b => inferInstanceAs (Decidable (b.1 < a.1 ∨ (a.1 = b.1 ∧ b.2 ≤ a.2)))

/-- Source line 187: the left frame sorted by descending grade then involvement. -/
def sort_g_p_inv (i : RawInput) : List (Nat × ℚ) :=
  List.insertionSort siteBefore (g_p_inv i)

/-- Source line 215: the right frame sorted the same way. -/
def sort_g_p_inv_r (i : RawInput) : List (Nat × ℚ) :=
  List.insertionSort siteBefore (g_p_inv_r i)

/-- Source line 191: the Gleason column max of the sorted left frame. -/
def worstGleason (i : RawInput) : Nat :=
  colMax 0 ((sort_g_p_inv i).map Prod.fst)

/-- Source line 196: the involvement column max of the sorted left frame. -/
def maxCoreInv (i : RawInput) : ℚ :=
  colMax 0 ((sort_g_p_inv i).map Prod.snd)

/-- Source line 224: the involvement column max of the sorted right frame. -/
def maxCoreInv_r (i : RawInput) : ℚ :=
  colMax 0 ((sort_g_p_inv_r i).map Prod.snd)

/-- The eleven engineered features, in the order of the pt_data dictionary
(source lines 190-201) and of features_list (source lines 123-133). -/
structure DerivedFeatureVector where
  ageAtBiopsy : ℚ
  worstGradeGroup : ℚ
  psaDensity : ℚ
  perineuralInvasion : ℚ
  percentPositiveCores : ℚ
  percentPatternHighGrade : ℚ
  maxPercentCoreInvolvement : ℚ
  baseFinding : ℚ
  basePercentCoreInvolvement : ℚ
  midPercentCoreInvolvement : ℚ
  apexPercentCoreInvolvement : ℚ
deriving DecidableEq

/-- The left pt_data dictionary values, source lines 190-201. -/
def pt_data_fields (i : RawInput) : DerivedFeatureVector where
  ageAtBiopsy := (i.age : ℚ)
  worstGradeGroup := (worstGleason i : ℚ)
  psaDensity := i.psa / i.vol
  perineuralInvasion := (i.perineural_inv : ℚ)
  percentPositiveCores := ((i.pos_core : ℚ) / (i.taken_core : ℚ)) * 100
  percentPatternHighGrade := i.p_high
  maxPercentCoreInvolvement := maxCoreInv i
  baseFinding := (i.base_findings : ℚ)
  basePercentCoreInvolvement := i.base_p_inv
  midPercentCoreInvolvement := i.mid_p_inv
  apexPercentCoreInvolvement := i.apex_p_inv

/-- The right pt_data_r dictionary values, source lines 218-229.
Line 219 of the source reads sort_g_p_inv, the LEFT sorted frame, for the
worst grade group, while line 224 reads sort_g_p_inv_r; the embedding
reproduces that exactly. -/
def pt_data_r_fields (i : RawInput) : DerivedFeatureVector where
  ageAtBiopsy := (i.age : ℚ)
  worstGradeGroup := (worstGleason i : ℚ)
  psaDensity := i.psa / i.vol
  perineuralInvasion := (i.perineural_inv : ℚ)
  percentPositiveCores := ((i.pos_core_r : ℚ) / (i.taken_core_r : ℚ)) * 100
  percentPatternHighGrade := i.p_high
  maxPercentCoreInvolvement := maxCoreInv_r i
  baseFinding := (i.base_findings_r : ℚ)
  basePercentCoreInvolvement := i.base_p_inv_r
  midPercentCoreInvolvement := i.mid_p_inv_r
  apexPercentCoreInvolvement := i.apex_p_inv_r

/-- Error taxonomy of the derivation pipeline. -/
inductive PipelineError where
  | divisionByZero
  | rangeError
deriving DecidableEq

instance {ε α : Type} [DecidableEq ε] [DecidableEq α] : DecidableEq (Except ε α)
  | .error e, .error f =>
    if h : e = f then isTrue (by rw [h]) else isFalse (fun c => h (by injection c))
  | .error _, .ok _ => isFalse (fun c => Except.noConfusion c)
  | .ok _, .error _ => isFalse (fun c => Except.noConfusion c)
  | .ok a, .ok b =>
    if h : a = b then isTrue (by rw [h]) else isFalse (fun c => h (by injection c))

/-- Left lobe derivation: Python raises ZeroDivisionError from psa/vol
(line 192) or pos_core/taken_core (line 194); otherwise the dictionary of
source lines 190-201 is produced. -/
def pt_data (i : RawInput) : Except PipelineError DerivedFeatureVector :=
  if i.vol = 0 then .error .divisionByZero
  else if i.taken_core = 0 then .error .divisionByZero
  else .ok (pt_data_fields i)

/-- Right lobe derivation, source lines 218-229. -/
def pt_data_r (i : RawInput) : Except PipelineError DerivedFeatureVector :=
  if i.vol = 0 then .error .divisionByZero
  else if i.taken_core_r = 0 then .error .divisionByZero
  else .ok (pt_data_r_fields i)

/-- One submission pass: derive the left vector, then the right vector,
then hand both to the scorer (source lines 176-231 then 359-376). A
derivation error aborts the pass before the scorer sees anything. -/
def runPipeline (score : DerivedFeatureVector → ℚ) (i : RawInput) :
    Except PipelineError (ℚ × ℚ) := do
  let l ← pt_data i
  let r ← pt_data_r i
  pure (score l, score r)

theorem pt_data_ok (i : RawInput) (h1 : i.vol ≠ 0) (h2 : i.taken_core ≠ 0) :
    pt_data i = .ok (pt_data_fields i) := by
  simp [pt_data, h1, h2]

theorem pt_data_r_ok (i : RawInput) (h1 : i.vol ≠ 0) (h2 : i.taken_core_r ≠ 0) :
    pt_data_r i = .ok (pt_data_r_fields i) := by
  simp [pt_data_r, h1, h2]

theorem pt_data_eq_ok {i : RawInput} {v : DerivedFeatureVector}
    (h : pt_data i = .ok v) :
    i.vol ≠ 0 ∧ i.taken_core ≠ 0 ∧ v = pt_data_fields i := by
  by_cases h1 : i.vol = 0
  · simp [pt_data, h1] at h
  · by_cases h2 : i.taken_core = 0
    · simp [pt_data, h1, h2] at h
    · simp [pt_data, h1, h2] at h
      exact ⟨h1, h2, h.symm⟩

theorem pt_data_r_eq_ok {i : RawInput} {v : DerivedFeatureVector}
    (h : pt_data_r i = .ok v) :
    i.vol ≠ 0 ∧ i.taken_core_r ≠ 0 ∧ v = pt_data_r_fields i := by
  by_cases h1 : i.vol = 0
  · simp [pt_data_r, h1] at h
  · by_cases h2 : i.taken_core_r = 0
    · simp [pt_data_r, h1, h2] at h
    · simp [pt_data_r, h1, h2] at h
      exact ⟨h1, h2, h.symm⟩

/-- The Gleason column of the sorted left frame is a permutation of the
raw grade list, so its max is the max of the raw grades. -/
theorem worstGleason_eq (i : RawInput) :
    worstGleason i = colMax 0 (gleason_t i) := by
  have hperm : ((sort_g_p_inv i).map Prod.fst).Perm ((g_p_inv i).map Prod.fst) :=
    (List.perm_insertionSort siteBefore (g_p_inv i)).map Prod.fst
  have hcol : (g_p_inv i).map Prod.fst = gleason_t i := rfl
  calc worstGleason i = colMax 0 ((g_p_inv i).map Prod.fst) := colMax_perm 0 hperm
    _ = colMax 0 (gleason_t i) := by rw [hcol]

/-- The involvement column max of the sorted left frame is the max of the
raw left involvements. -/
theorem maxCoreInv_eq (i : RawInput) :
    maxCoreInv i = colMax 0 (p_inv_t i) := by
  have hperm : ((sort_g_p_inv i).map Prod.snd).Perm ((g_p_inv i).map Prod.snd) :=
    (List.perm_insertionSort siteBefore (g_p_inv i)).map Prod.snd
  have hcol : (g_p_inv i).map Prod.snd = p_inv_t i := rfl
  calc maxCoreInv i = colMax 0 ((g_p_inv i).map Prod.snd) := colMax_perm 0 hperm
    _ = colMax 0 (p_inv_t i) := by rw [hcol]

/-- The involvement column max of the sorted right frame is the max of the
raw right involvements. -/
theorem maxCoreInv_r_eq (i : RawInput) :
    maxCoreInv_r i = colMax 0 (p_inv_t_r i) := by
  have hperm : ((sort_g_p_inv_r i).map Prod.snd).Perm ((g_p_inv_r i).map Prod.snd) :=
    (List.perm_insertionSort siteBefore (g_p_inv_r i)).map Prod.snd
  have hcol : (g_p_inv_r i).map Prod.snd = p_inv_t_r i := rfl
  calc maxCoreInv_r i = colMax 0 ((g_p_inv_r i).map Prod.snd) := colMax_perm 0 hperm
    _ = colMax 0 (p_inv_t_r i) := by rw [hcol]

/-- The fixed feature name tuple of source lines 123-133, handed to the
explainer plots as the schema of the vector. -/
def features_list : List String :=
  ["Age at Biopsy",
   "Worst Gleason Grade Group",
   "PSA density",
   "Perineural invasion",
   "% positive cores",
   "% Gleason pattern 4/5",
   "Max % core involvement",
   "Base finding",
   "Base % core involvement",
   "Mid % core involvement",
   "Apex % core involvement"]

/-- A derived vector as the ordered key/value dictionary of source
lines 190-201 (and 218-229, which uses the same keys in the same order). -/
def toPairs (v : DerivedFeatureVector) : List (String × ℚ) :=
  [("Age at Biopsy", v.ageAtBiopsy),
   ("Worst Gleason Grade Group", v.worstGradeGroup),
   ("PSA density", v.psaDensity),
   ("Perineural invasion", v.perineuralInvasion),
   ("% positive cores", v.percentPositiveCores),
   ("% Gleason pattern 4/5", v.percentPatternHighGrade),
   ("Max % core involvement", v.maxPercentCoreInvolvement),
   ("Base finding", v.baseFinding),
   ("Base % core involvement", v.basePercentCoreInvolvement),
   ("Mid % core involvement", v.midPercentCoreInvolvement),
   ("Apex % core involvement", v.apexPercentCoreInvolvement)]

/-- Check of a rational against a closed interval. -/
def inRange (lo hi x : ℚ) : Bool :=
  decide (lo ≤ x) && decide (x ≤ hi)

/-- Modelled from the spec: the declared input domains. The bounds are the
widget bounds of source lines 140-172 (age 0..100, PSA 0..200, volume
0..300, percentages 0..100, grades the selectbox ordinals 0..5, booleans
0..1, core counts 0..30); the source delegates their enforcement to the
form widgets, which refuse an out-of-domain value before the form can be
submitted. -/
def validateInput (i : RawInput) : Bool :=
  decide (i.age ≤ 100) &&
  inRange 0 200 i.psa &&
  inRange 0 300 i.vol &&
  inRange 0 100 i.p_high &&
  decide (i.perineural_inv ≤ 1) &&
  decide (i.base_findings ≤ 5) && inRange 0 100 i.base_p_inv &&
  decide (i.mid_findings ≤ 5) && inRange 0 100 i.mid_p_inv &&
  decide (i.apex_findings ≤ 5) && inRange 0 100 i.apex_p_inv &&
  decide (i.pos_core ≤ 30) && decide (i.taken_core ≤ 30) &&
  decide (i.base_findings_r ≤ 5) && inRange 0 100 i.base_p_inv_r &&
  decide (i.mid_findings_r ≤ 5) && inRange 0 100 i.mid_p_inv_r &&
  decide (i.apex_findings_r ≤ 5) && inRange 0 100 i.apex_p_inv_r &&
  decide (i.pos_core_r ≤ 30) && decide (i.taken_core_r ≤ 30)

/-- Modelled from the spec: out-of-domain input is rejected with a range
error before any derivation runs; in-domain input flows into the
submission pass unchanged. -/
def fullPipeline (score : DerivedFeatureVector → ℚ) (i : RawInput) :
    Except PipelineError (ℚ × ℚ) :=
  if validateInput i then runPipeline score i else .error .rangeError

/-- Lobe side of the prostate diagram. -/
inductive Side where
  | left
  | right
deriving DecidableEq

/-- Anatomical site position within a lobe. -/
inductive SitePos where
  | base
  | mid
  | apex
deriving DecidableEq

/-- Orientation applied to an overlay asset before pasting (PIL ImageOps
calls in source lines 249-344). -/
inductive Transform where
  | plain
  | flip
  | mirror
  | flipMirror
deriving DecidableEq

/-- One paste action on the prostate diagram: asset file stem, paste
coordinates, orientation transform. -/
structure Overlay where
  asset : String
  loc : Nat × Nat
  transform : Transform
deriving DecidableEq

/-- Corner asset file stem, as in the literals of source lines 251-263. -/
def corner (n : Nat) : String := "Corner " ++ toString n

/-- Mid asset file stem, as in the literals of source lines 267-279. -/
def midName (n : Nat) : String := "Mid " ++ toString n

/-- The five successive single-branch conditionals the source runs for one
site: grade g pastes the overlay of the matching branch, all other
branches paste nothing. -/
def gradePastes (g : Nat) (mk : Nat → Overlay) : List Overlay :=
  (if g = 1 then [mk 1] else []) ++
  (if g = 2 then [mk 2] else []) ++
  (if g = 3 then [mk 3] else []) ++
  (if g = 4 then [mk 4] else []) ++
  (if g = 5 then [mk 5] else [])

/-- The overlays pasted for one site at a given grade, source lines
249-344: left base flipped at (145, 958); left mid plain at (145, 606);
left apex plain at (145, 130); right base flipped and mirrored at
(1104, 958); right mid plain at (1542, 606); right apex mirrored at
(1104, 130). -/
def sitePastes (s : Side) (p : SitePos) (g : Nat) : List Overlay :=
  match s, p with
  | .left, .base => gradePastes g (fun n => ⟨corner n, (145, 958), .flip⟩)
  | .left, .mid => gradePastes g (fun n => ⟨midName n, (145, 606), .plain⟩)
  | .left, .apex => gradePastes g (fun n => ⟨corner n, (145, 130), .plain⟩)
  | .right, .base => gradePastes g (fun n => ⟨corner n, (1104, 958), .flipMirror⟩)
  | .right, .mid => gradePastes g (fun n => ⟨midName n, (1542, 606), .plain⟩)
  | .right, .apex => gradePastes g (fun n => ⟨corner n, (1104, 130), .mirror⟩)

/-- The G_CHOICES labels of source lines 113-118. -/
def gChoices : Nat → String
  | 0 => "Benign"
  | 1 => "ISUP Grade 1 (Gleason 3+3)"
  | 2 => "ISUP Grade 2 (Gleason 3+4)"
  | 3 => "ISUP Grade 3 (Gleason 4+3)"
  | 4 => "ISUP Grade 4 (Gleason 4+4/5+3/3+5)"
  | 5 => "ISUP Grade 5 (Gleason 4+5/5+4/5+5)"
  | _ => ""

/-- The per-site text label of source lines 235-246: the finding name,
a line break, and the percent core involvement rendered as text. -/
def siteLabel (g : Nat) (invText : String) : String :=
  gChoices g ++ "\n" ++ "% core inv: " ++ invText

/-- Modelled from the spec: the involvement of the first row of the
severity-sorted frame, i.e. the dominant site after the sort (the spec
reading of MaxPercentCoreInvolvement). Defined only for comparison with
the value the code computes. -/
def specDominantInvolvement (l : List (Nat × ℚ)) : ℚ :=
  ((List.insertionSort siteBefore l).headD (0, 0)).2

/-- A well-formed submission close to the form defaults of the source:
left lobe grades (3, 3, 0) with involvements (7, 5, 0), right lobe grades
(5, 4, 3) with involvements (45, 45, 20). -/
def exIn : RawInput where
  age := 60
  psa := 8
  vol := 40
  p_high := 20
  perineural_inv := 1
  base_findings := 3
  base_p_inv := 7
  mid_findings := 3
  mid_p_inv := 5
  apex_findings := 0
  apex_p_inv := 0
  pos_core := 3
  taken_core := 6
  base_findings_r := 5
  base_p_inv_r := 45
  mid_findings_r := 4
  mid_p_inv_r := 45
  apex_findings_r := 3
  apex_p_inv_r := 20
  pos_core_r := 5
  taken_core_r := 8

/-- Left lobe all grade 5, right lobe all grade 1: exposes where the right
worst grade group really comes from. -/
def exC1 : RawInput :=
  { exIn with
    base_findings := 5, base_p_inv := 10
    mid_findings := 5, mid_p_inv := 10
    apex_findings := 5, apex_p_inv := 10
    base_findings_r := 1, base_p_inv_r := 20
    mid_findings_r := 1, mid_p_inv_r := 20
    apex_findings_r := 1, apex_p_inv_r := 20 }

/-- The tie-break scenario: left sites (4, 30), (4, 60), (2, 90). -/
def exC2 : RawInput :=
  { exIn with
    base_findings := 4, base_p_inv := 30
    mid_findings := 4, mid_p_inv := 60
    apex_findings := 2, apex_p_inv := 90 }

/-- exIn with zero cores taken on the left. -/
def exZeroCores : RawInput := { exIn with taken_core := 0 }

/-- exIn with zero prostate volume. -/
def exZeroVol : RawInput := { exIn with vol := 0 }

/-- exIn with an out-of-domain grade and zero volume. -/
def exC7 : RawInput := { exIn with base_findings := 6, vol := 0 }

/-- exIn with the three left site pairs cyclically permuted. -/
def exPermL : RawInput :=
  { exIn with
    base_findings := 0, base_p_inv := 0
    mid_findings := 3, mid_p_inv := 7
    apex_findings := 3, apex_p_inv := 5 }

/-- Claim C1: the claim says the right lobe WorstGradeGroup equals the max
of the three right-lobe site grades, independent of the left lobe. The
code does not satisfy this: source line 219 reads the Gleason column max
of sort_g_p_inv, the LEFT sorted frame, so with left grades all 5 and
right grades all 1 the right vector carries WorstGradeGroup 5 while the
max right-lobe grade is 1. -/
theorem C1_right_worst_grade_from_left_lobe :
    (pt_data_r exC1).map (fun v => v.worstGradeGroup) = .ok 5 ∧
    colMax 0 (gleason_t_r exC1) = 1 ∧
    (pt_data_r exC1).map (fun v => v.worstGradeGroup) ≠
      .ok ((colMax 0 (gleason_t_r exC1) : Nat) : ℚ) := by
  refine ⟨rfl, rfl, ?_⟩
  decide

/-- Claim C2, counterexample: with left sites (4, 30), (4, 60), (2, 90)
the code yields MaxPercentCoreInvolvement 90 (the involvement column max,
which belongs to the grade-2 site), not the 60 of the dominant site that
the claim requires. -/
theorem C2_counterexample :
    (pt_data exC2).map (fun v => v.maxPercentCoreInvolvement) = .ok 90 ∧
    specDominantInvolvement (g_p_inv exC2) = 60 ∧
    (pt_data exC2).map (fun v => v.maxPercentCoreInvolvement) ≠
      .ok (specDominantInvolvement (g_p_inv exC2)) := by
  refine ⟨rfl, by decide, ?_⟩
  decide

/-- Claim C2, amended: for each lobe the derived MaxPercentCoreInvolvement
equals the maximum percentCoreInvolvement over that lobe's three sites
(the global column max, which may belong to a lower-grade site); the
severity sort has no effect on it. -/
theorem C2_amended_global_max_involvement (i : RawInput) :
    (i.vol ≠ 0 → i.taken_core ≠ 0 →
      ∃ v, pt_data i = .ok v ∧
        v.maxPercentCoreInvolvement = colMax 0 (p_inv_t i)) ∧
    (i.vol ≠ 0 → i.taken_core_r ≠ 0 →
      ∃ v, pt_data_r i = .ok v ∧
        v.maxPercentCoreInvolvement = colMax 0 (p_inv_t_r i)) := by
  constructor
  · intro h1 h2
    exact ⟨pt_data_fields i, pt_data_ok i h1 h2, maxCoreInv_eq i⟩
  · intro h1 h2
    exact ⟨pt_data_r_fields i, pt_data_r_ok i h1 h2, maxCoreInv_r_eq i⟩

theorem C2_amended_global_max_involvement_witness :
    (exC2.vol ≠ 0 ∧ exC2.taken_core ≠ 0) ∧
    (∃ v, pt_data exC2 = .ok v ∧
      v.maxPercentCoreInvolvement = colMax 0 (p_inv_t exC2)) :=
  ⟨⟨by decide, by decide⟩,
   (C2_amended_global_max_involvement exC2).1 (by decide) (by decide)⟩

/-- Claim C3: with a positive cores-taken count the derived percent of
positive cores is 100 times the ratio of positive to taken cores on that
lobe; with a zero cores-taken count the pass aborts with the
division-by-zero error before any scorer is invoked (the result is the
same for every scorer and carries no probability). -/
theorem C3_percent_positive_cores (i : RawInput) :
    (i.vol ≠ 0 → i.taken_core ≠ 0 →
      ∃ v, pt_data i = .ok v ∧
        v.percentPositiveCores = 100 * ((i.pos_core : ℚ) / (i.taken_core : ℚ))) ∧
    (i.vol ≠ 0 → i.taken_core_r ≠ 0 →
      ∃ v, pt_data_r i = .ok v ∧
        v.percentPositiveCores = 100 * ((i.pos_core_r : ℚ) / (i.taken_core_r : ℚ))) ∧
    ((i.taken_core = 0 ∨ i.taken_core_r = 0) →
      ∀ s, runPipeline s i = .error .divisionByZero) := by
  refine ⟨?_, ?_, ?_⟩
  · intro h1 h2
    refine ⟨pt_data_fields i, pt_data_ok i h1 h2, ?_⟩
    show ((i.pos_core : ℚ) / (i.taken_core : ℚ)) * 100 = _
    ring
  · intro h1 h2
    refine ⟨pt_data_r_fields i, pt_data_r_ok i h1 h2, ?_⟩
    show ((i.pos_core_r : ℚ) / (i.taken_core_r : ℚ)) * 100 = _
    ring
  · intro h s
    by_cases h1 : i.vol = 0
    · simp [runPipeline, pt_data, h1, Bind.bind, Except.bind]
    · rcases h with h | h
      · simp [runPipeline, pt_data, h1, h, Bind.bind, Except.bind]
      · by_cases h2 : i.taken_core = 0
        · simp [runPipeline, pt_data, h1, h2, Bind.bind, Except.bind]
        · simp [runPipeline, pt_data, pt_data_r, h1, h2, h, Bind.bind, Except.bind]

theorem C3_percent_positive_cores_witness :
    (exIn.vol ≠ 0 ∧ exIn.taken_core ≠ 0 ∧
      ∃ v, pt_data exIn = .ok v ∧
        v.percentPositiveCores = 100 * ((exIn.pos_core : ℚ) / (exIn.taken_core : ℚ))) ∧
    (exZeroCores.taken_core = 0 ∧
      ∀ s, runPipeline s exZeroCores = .error .divisionByZero) :=
  ⟨⟨by decide, by decide,
    (C3_percent_positive_cores exIn).1 (by decide) (by decide)⟩,
   ⟨rfl, (C3_percent_positive_cores exZeroCores).2.2 (Or.inl rfl)⟩⟩

/-- Claim C4: with a positive volume both lobes derive the same PsaDensity
PSA / volume; with zero volume the pass aborts with the division-by-zero
error for every scorer, substituting no default value. -/
theorem C4_psa_density (i : RawInput) :
    (i.vol ≠ 0 → i.taken_core ≠ 0 → i.taken_core_r ≠ 0 →
      ∃ v w, pt_data i = .ok v ∧ pt_data_r i = .ok w ∧
        v.psaDensity = i.psa / i.vol ∧ w.psaDensity = i.psa / i.vol) ∧
    (i.vol = 0 → ∀ s, runPipeline s i = .error .divisionByZero) := by
  constructor
  · intro h1 h2 h3
    exact ⟨pt_data_fields i, pt_data_r_fields i,
      pt_data_ok i h1 h2, pt_data_r_ok i h1 h3, rfl, rfl⟩
  · intro h s
    simp [runPipeline, pt_data, h, Bind.bind, Except.bind]

theorem C4_psa_density_witness :
    (exIn.vol ≠ 0 ∧ exIn.taken_core ≠ 0 ∧ exIn.taken_core_r ≠ 0 ∧
      ∃ v w, pt_data exIn = .ok v ∧ pt_data_r exIn = .ok w ∧
        v.psaDensity = exIn.psa / exIn.vol ∧ w.psaDensity = exIn.psa / exIn.vol) ∧
    (exZeroVol.vol = 0 ∧
      ∀ s, runPipeline s exZeroVol = .error .divisionByZero) :=
  ⟨⟨by decide, by decide, by decide,
    (C4_psa_density exIn).1 (by decide) (by decide) (by decide)⟩,
   ⟨rfl, (C4_psa_density exZeroVol).2 rfl⟩⟩

/-- Claim C5: in each lobe the derived BaseFinding and the three per-site
involvements are the raw base/mid/apex inputs of that lobe unchanged,
positional and not severity-ranked, whatever the site values are. -/
theorem C5_positional_fields (i : RawInput) (v w : DerivedFeatureVector)
    (hv : pt_data i = .ok v) (hw : pt_data_r i = .ok w) :
    v.baseFinding = (i.base_findings : ℚ) ∧
    v.basePercentCoreInvolvement = i.base_p_inv ∧
    v.midPercentCoreInvolvement = i.mid_p_inv ∧
    v.apexPercentCoreInvolvement = i.apex_p_inv ∧
    w.baseFinding = (i.base_findings_r : ℚ) ∧
    w.basePercentCoreInvolvement = i.base_p_inv_r ∧
    w.midPercentCoreInvolvement = i.mid_p_inv_r ∧
    w.apexPercentCoreInvolvement = i.apex_p_inv_r := by
  obtain ⟨-, -, hv2⟩ := pt_data_eq_ok hv
  obtain ⟨-, -, hw2⟩ := pt_data_r_eq_ok hw
  subst hv2
  subst hw2
  exact ⟨rfl, rfl, rfl, rfl, rfl, rfl, rfl, rfl⟩

theorem C5_positional_fields_witness :
    pt_data exIn = .ok (pt_data_fields exIn) ∧
    pt_data_r exIn = .ok (pt_data_r_fields exIn) ∧
    ((pt_data_fields exIn).baseFinding = (exIn.base_findings : ℚ) ∧
     (pt_data_fields exIn).basePercentCoreInvolvement = exIn.base_p_inv ∧
     (pt_data_fields exIn).midPercentCoreInvolvement = exIn.mid_p_inv ∧
     (pt_data_fields exIn).apexPercentCoreInvolvement = exIn.apex_p_inv ∧
     (pt_data_r_fields exIn).baseFinding = (exIn.base_findings_r : ℚ) ∧
     (pt_data_r_fields exIn).basePercentCoreInvolvement = exIn.base_p_inv_r ∧
     (pt_data_r_fields exIn).midPercentCoreInvolvement = exIn.mid_p_inv_r ∧
     (pt_data_r_fields exIn).apexPercentCoreInvolvement = exIn.apex_p_inv_r) :=
  ⟨pt_data_ok exIn (by decide) (by decide),
   pt_data_r_ok exIn (by decide) (by decide),
   C5_positional_fields exIn (pt_data_fields exIn) (pt_data_r_fields exIn)
     (pt_data_ok exIn (by decide) (by decide))
     (pt_data_r_ok exIn (by decide) (by decide))⟩

/-- Claim C6: every derived feature vector is exactly the eleven named
fields, in the fixed dictionary order, and that order is exactly the
features_list schema the scorer and explainer consume. -/
theorem C6_schema_eleven_fields (v : DerivedFeatureVector) :
    (toPairs v).map Prod.fst = features_list ∧
    (toPairs v).length = 11 ∧
    features_list.length = 11 :=
  ⟨rfl, rfl, rfl⟩

/-- Claim C7: an input with any grade outside 0..5 or any percentage
outside 0..100 is rejected with the range error before derivation: the
pass ends in the range error for every scorer, even when the input would
also divide by zero inside derivation. -/
theorem C7_range_rejection (i : RawInput) (s : DerivedFeatureVector → ℚ)
    (h : 5 < i.base_findings ∨ 5 < i.mid_findings ∨ 5 < i.apex_findings ∨
      5 < i.base_findings_r ∨ 5 < i.mid_findings_r ∨ 5 < i.apex_findings_r ∨
      i.p_high < 0 ∨ 100 < i.p_high ∨
      i.base_p_inv < 0 ∨ 100 < i.base_p_inv ∨
      i.mid_p_inv < 0 ∨ 100 < i.mid_p_inv ∨
      i.apex_p_inv < 0 ∨ 100 < i.apex_p_inv ∨
      i.base_p_inv_r < 0 ∨ 100 < i.base_p_inv_r ∨
      i.mid_p_inv_r < 0 ∨ 100 < i.mid_p_inv_r ∨
      i.apex_p_inv_r < 0 ∨ 100 < i.apex_p_inv_r) :
    fullPipeline s i = .error .rangeError := by
  cases hB : validateInput i with
  | false => simp [fullPipeline, hB]
  | true =>
    exfalso
    simp only [validateInput, inRange, Bool.and_eq_true, decide_eq_true_eq,
      and_assoc] at hB
    obtain ⟨hb1, hb2, hb3, hb4, hb5, hb6, hb7, hb8, hb9, hb10, hb11, hb12,
      hb13, hb14, hb15, hb16, hb17, hb18, hb19, hb20, hb21, hb22, hb23, hb24,
      hb25, hb26, hb27, hb28, hb29, hb30⟩ := hB
    rcases h with h|h|h|h|h|h|h|h|h|h|h|h|h|h|h|h|h|h|h|h
    all_goals first
    | omega
    | linarith

theorem C7_range_rejection_witness :
    5 < exC7.base_findings ∧
    fullPipeline (fun _ => 0) exC7 = .error .rangeError :=
  ⟨by decide,
   C7_range_rejection exC7 (fun _ => 0) (Or.inl (by decide))⟩

/-- Claim C8: per site the overlays are mutually exclusive in the grade:
grade 0 pastes nothing, and each grade 1..5 pastes exactly the one overlay
of that grade with the asset, paste position and orientation fixed by the
anatomical position and side (left base flipped, right base flipped and
mirrored, right apex mirrored, the others plain); the text label carries
the finding name and the percent core involvement. -/
theorem C8_overlay_selection (g : Nat) (t : String) (h1 : 1 ≤ g) (h5 : g ≤ 5) :
    (∀ s p, sitePastes s p 0 = []) ∧
    sitePastes .left .base g = [⟨corner g, (145, 958), .flip⟩] ∧
    sitePastes .left .mid g = [⟨midName g, (145, 606), .plain⟩] ∧
    sitePastes .left .apex g = [⟨corner g, (145, 130), .plain⟩] ∧
    sitePastes .right .base g = [⟨corner g, (1104, 958), .flipMirror⟩] ∧
    sitePastes .right .mid g = [⟨midName g, (1542, 606), .plain⟩] ∧
    sitePastes .right .apex g = [⟨corner g, (1104, 130), .mirror⟩] ∧
    (∃ u, siteLabel g t = gChoices g ++ u) ∧
    (∃ u, siteLabel g t = u ++ t) := by
  refine ⟨?_, ?_⟩
  · intro s p
    cases s <;> cases p <;> rfl
  · interval_cases g <;>
      exact ⟨rfl, rfl, rfl, rfl, rfl, rfl,
        ⟨"\n" ++ "% core inv: " ++ t, by simp [siteLabel, String.append_assoc]⟩,
        ⟨gChoices _ ++ "\n" ++ "% core inv: ", rfl⟩⟩

theorem C8_overlay_selection_witness :
    (1 ≤ 3 ∧ 3 ≤ 5) ∧
    ((∀ s p, sitePastes s p 0 = []) ∧
     sitePastes .left .base 3 = [⟨corner 3, (145, 958), .flip⟩] ∧
     sitePastes .left .mid 3 = [⟨midName 3, (145, 606), .plain⟩] ∧
     sitePastes .left .apex 3 = [⟨corner 3, (145, 130), .plain⟩] ∧
     sitePastes .right .base 3 = [⟨corner 3, (1104, 958), .flipMirror⟩] ∧
     sitePastes .right .mid 3 = [⟨midName 3, (1542, 606), .plain⟩] ∧
     sitePastes .right .apex 3 = [⟨corner 3, (1104, 130), .mirror⟩] ∧
     (∃ u, siteLabel 3 "7.5" = gChoices 3 ++ u) ∧
     (∃ u, siteLabel 3 "7.5" = u ++ "7.5")) :=
  ⟨⟨by decide, by decide⟩,
   C8_overlay_selection 3 "7.5" (by decide) (by decide)⟩

/-- Claim C9: feature derivation is deterministic: two submissions with
the same raw values in every field produce identical left and right
results, errors included. -/
theorem C9_determinism (i j : RawInput)
    (h1 : i.age = j.age) (h2 : i.psa = j.psa) (h3 : i.vol = j.vol)
    (h4 : i.p_high = j.p_high) (h5 : i.perineural_inv = j.perineural_inv)
    (h6 : i.base_findings = j.base_findings) (h7 : i.base_p_inv = j.base_p_inv)
    (h8 : i.mid_findings = j.mid_findings) (h9 : i.mid_p_inv = j.mid_p_inv)
    (h10 : i.apex_findings = j.apex_findings) (h11 : i.apex_p_inv = j.apex_p_inv)
    (h12 : i.pos_core = j.pos_core) (h13 : i.taken_core = j.taken_core)
    (h14 : i.base_findings_r = j.base_findings_r) (h15 : i.base_p_inv_r = j.base_p_inv_r)
    (h16 : i.mid_findings_r = j.mid_findings_r) (h17 : i.mid_p_inv_r = j.mid_p_inv_r)
    (h18 : i.apex_findings_r = j.apex_findings_r) (h19 : i.apex_p_inv_r = j.apex_p_inv_r)
    (h20 : i.pos_core_r = j.pos_core_r) (h21 : i.taken_core_r = j.taken_core_r) :
    pt_data i = pt_data j ∧ pt_data_r i = pt_data_r j := by
  have hij : i = j := by
    cases i
    cases j
    simp only [RawInput.mk.injEq]
    exact ⟨h1, h2, h3, h4, h5, h6, h7, h8, h9, h10, h11, h12, h13, h14, h15,
      h16, h17, h18, h19, h20, h21⟩
  rw [hij]
  exact ⟨rfl, rfl⟩

theorem C9_determinism_witness :
    pt_data exIn = pt_data exIn ∧ pt_data_r exIn = pt_data_r exIn :=
  C9_determinism exIn exIn rfl rfl rfl rfl rfl rfl rfl rfl rfl rfl rfl rfl
    rfl rfl rfl rfl rfl rfl rfl rfl rfl

/-- Claim C10: the worst grade group and max involvement the code derives
are invariant under every permutation of a lobe's three (grade,
involvement) site pairs, because each is a column max and the severity
sort cannot change a column max; the last two conjuncts place these two
quantities inside the derived vectors of the two lobes (the right vector
takes its worst grade from the left frame, as the code does). -/
theorem C10_perm_invariance (i j : RawInput) :
    ((g_p_inv j).Perm (g_p_inv i) →
      worstGleason j = worstGleason i ∧ maxCoreInv j = maxCoreInv i) ∧
    (g_p_inv j = g_p_inv i → (g_p_inv_r j).Perm (g_p_inv_r i) →
      worstGleason j = worstGleason i ∧ maxCoreInv_r j = maxCoreInv_r i) ∧
    (∀ v, pt_data i = .ok v →
      v.worstGradeGroup = (worstGleason i : ℚ) ∧
      v.maxPercentCoreInvolvement = maxCoreInv i) ∧
    (∀ v, pt_data_r i = .ok v →
      v.worstGradeGroup = (worstGleason i : ℚ) ∧
      v.maxPercentCoreInvolvement = maxCoreInv_r i) := by
  refine ⟨?_, ?_, ?_, ?_⟩
  · intro hp
    constructor
    · rw [worstGleason_eq j, worstGleason_eq i]
      exact colMax_perm 0 (show (gleason_t j).Perm (gleason_t i) from hp.map Prod.fst)
    · rw [maxCoreInv_eq j, maxCoreInv_eq i]
      exact colMax_perm 0 (show (p_inv_t j).Perm (p_inv_t i) from hp.map Prod.snd)
  · intro he hp
    constructor
    · rw [worstGleason_eq j, worstGleason_eq i]
      have h3 : (g_p_inv j).map Prod.fst = (g_p_inv i).map Prod.fst := by rw [he]
      exact congrArg (colMax 0) h3
    · rw [maxCoreInv_r_eq j, maxCoreInv_r_eq i]
      exact colMax_perm 0 (show (p_inv_t_r j).Perm (p_inv_t_r i) from hp.map Prod.snd)
  · intro v hv
    obtain ⟨-, -, h⟩ := pt_data_eq_ok hv
    subst h
    exact ⟨rfl, rfl⟩
  · intro v hv
    obtain ⟨-, -, h⟩ := pt_data_r_eq_ok hv
    subst h
    exact ⟨rfl, rfl⟩

theorem C10_perm_invariance_witness :
    (g_p_inv exPermL).Perm (g_p_inv exIn) ∧
    (worstGleason exPermL = worstGleason exIn ∧
     maxCoreInv exPermL = maxCoreInv exIn) :=
  ⟨by decide, (C10_perm_invariance exIn exPermL).1 (by decide)⟩

end SEPERA
